import Mathlib

/-!
Shallow embedding of the Dil-fridge slow-control scripts
(`slow_control_v2.py`, `slow_control_v3.py`).

Pure computations (response parsing, row assembly) are translated directly
into Lean functions over `String`, `List` and `ℚ` (Python floats on the
parsed decimal/scientific literals are modelled exactly as rationals).
Stateful driver methods become explicit state-passing functions: the held
transport handle becomes a `Bool` (`true` = a live handle is held, i.e.
`self.conn`/`self.ser` is not `None`), and the outcome of each external
I/O call (connect attempt, bus query, serial read) is an explicit input.
Exceptions that the Python code catches are modelled as the corresponding
caught branches; each function additionally reports how many connect
attempts it performed during the call.
-/

set_option maxRecDepth 4096

namespace SlowControl

/-- Python `str.strip()`: drop whitespace from both ends. -/
def trimChars (cs : List Char) : List Char :=
  ((cs.dropWhile Char.isWhitespace).reverse.dropWhile Char.isWhitespace).reverse

/-- Python `str.split(',')`: split on every comma, keeping empty pieces
(so the empty string yields one empty piece). -/
def splitComma : List Char → List (List Char)
  | [] => [[]]
  | c :: rest =>
    if c = ',' then [] :: splitComma rest
    else
      match splitComma rest with
      | [] => [[c]]
      | t :: ts => (c :: t) :: ts

/-- Accumulator-passing worker for `splitWsChars`; `acc` holds the
current token reversed. -/
def splitWsAux : List Char → List Char → List (List Char)
  | acc, [] => if acc.isEmpty then [] else [acc.reverse]
  | acc, c :: rest =>
    if c.isWhitespace then
      if acc.isEmpty then splitWsAux [] rest
      else acc.reverse :: splitWsAux [] rest
    else splitWsAux (c :: acc) rest

/-- Python `str.split()` with no argument: the maximal non-whitespace
tokens, empty tokens dropped. -/
def splitWsChars (cs : List Char) : List (List Char) :=
  splitWsAux [] cs

/-- Python `str.startswith('-')` on a character list. -/
def startsDash : List Char → Bool
  | '-' :: _ => true
  | _ => false

/-- Longest digit run at the head of the character list, plus the rest. -/
def spanDigits : List Char → List Char × List Char
  | [] => ([], [])
  | c :: rest =>
    if c.isDigit then
      let pr := spanDigits rest
      (c :: pr.1, pr.2)
    else ([], c :: rest)

/-- Value of a string of decimal digit characters. -/
def digitsToNat (ds : List Char) : Nat :=
  ds.foldl (fun a c => 10 * a + (c.toNat - 48)) 0

/-- Python `float(s)` on the fragment of its grammar the instruments emit:
optional sign, decimal digits with an optional point, and an optional
decimal exponent, with surrounding whitespace stripped.  Strings outside
that grammar (status words such as `"Off"`, empty strings) parse to
`none`, modelling `float` raising `ValueError`.  The parsed value is an
exact rational. -/
def pyFloat (s : String) : Option ℚ :=
  let cs0 := trimChars s.toList
  let sr : Int × List Char :=
    match cs0 with
    | '-' :: r => (-1, r)
    | '+' :: r => (1, r)
    | _ => (1, cs0)
  let ipr := spanDigits sr.2
  let ip := ipr.1
  let fpr :=
    match ipr.2 with
    | '.' :: r => spanDigits r
    | _ => ([], ipr.2)
  let fp := fpr.1
  let cs2 := fpr.2
  if ip.isEmpty && fp.isEmpty then none
  else
    let mantNum : Int :=
      sr.1 * ((digitsToNat ip * 10 ^ fp.length + digitsToNat fp : Nat) : Int)
    let mantDen : Nat := 10 ^ fp.length
    match cs2 with
    | [] => some (mkRat mantNum mantDen)
    | 'e' :: r | 'E' :: r =>
      let er : Bool × List Char :=
        match r with
        | '-' :: r2 => (false, r2)
        | '+' :: r2 => (true, r2)
        | _ => (true, r)
      let edr := spanDigits er.2
      if edr.1.isEmpty || !edr.2.isEmpty then none
      else if er.1 then some (mkRat (mantNum * (10 : Int) ^ digitsToNat edr.1) mantDen)
      else some (mkRat mantNum (mantDen * 10 ^ digitsToNat edr.1))
    | _ => none

/-- Channels read from the LS218 (`CHANNELS = [1, 2, 5, 6, 7]` in
`slow_control_v3.py`). -/
def CHANNELS : List Nat := [1, 2, 5, 6, 7]

/-- Parsing step of `LS218.get_all_temps`: strip the response
(`.strip()` on the query result), split it on commas, and convert every
field with `float`; any unparseable field is the `ValueError` branch
(`none`), which the method turns into the all-`None` row. -/
def parseTemps (resp : String) : Option (List ℚ) :=
  (splitComma (trimChars resp.toList)).mapM (fun cs => pyFloat (String.mk cs))

/-- The failure dictionary `{ch: None for ch in CHANNELS}` returned by
`LS218.get_all_temps` when no connection is available or the read fails. -/
def failRow : List (Nat × Option ℚ) :=
  CHANNELS.map (fun ch => (ch, none))

/-- Outcome of the `clear`/`query("KRDG? 0")` bus transaction: either a
`VisaIOError` (timeout, transport drop) or a response string. -/
inductive ReadOutcome
  | transportError
  | response (s : String)
deriving DecidableEq

/-- The success dictionary `{i + 1: readings[i] for i in range(len(readings))}`:
position `i` of the parsed vector keyed by channel `i + 1`, starting at
base `b` (`b = 0` at the top-level call). -/
def posDict : Nat → List ℚ → List (Nat × Option ℚ)
  | _, [] => []
  | b, v :: rest => (b + 1, some v) :: posDict (b + 1) rest

/-- `LS218.get_all_temps`, with the held handle as `conn`, the outcome of
the single lazy reconnect as `connectOk`, and the bus transaction outcome
as an explicit input.  Returns the new handle state, the returned
dictionary, and the number of connect attempts made inside this call. -/
def get_all_temps (conn : Bool) (connectOk : Bool) (outcome : ReadOutcome) :
    Bool × List (Nat × Option ℚ) × Nat :=
  let ca : Bool × Nat := if conn then (true, 0) else (connectOk, 1)
  if !ca.1 then (false, failRow, ca.2)
  else
    match outcome with
    | ReadOutcome.transportError => (false, failRow, ca.2)
    | ReadOutcome.response s =>
      match parseTemps s with
      | none => (false, failRow, ca.2)
      | some rs => (true, posDict 0 rs, ca.2)

/-- Whether `needle` occurs as a contiguous substring of `hay`
(Python `needle in hay` on strings). -/
def containsSub (hay needle : List Char) : Bool :=
  match hay with
  | [] => needle.isEmpty
  | _ :: t => needle.isPrefixOf hay || containsSub t needle

/-- `LS218.connect`: the handle it records, given whether the address is
listed (`found`), whether open/`*IDN?` succeed (`queryOk`), and the
identity string.  Every raised exception is caught and leaves
`self.conn = None`, so the result is just the final handle state and
construction never fails. -/
def ls218Connect (found : Bool) (queryOk : Bool) (idn : String) : Bool :=
  found && queryOk && containsSub idn.toList "218".toList

/-- Dash-like code points that `MKS2000.get_pressures` replaces with an
ASCII hyphen (`bad_minus` in the source). -/
def badMinus : List Char :=
  ['−', '–', '—', '‒', '‐', '‑']

/-- The `resp.replace(bm, '-')` loop over `bad_minus`: each listed code
point is one character, so the loop is a character map. -/
def normalizeDashChars (cs : List Char) : List Char :=
  cs.map (fun c => if badMinus.contains c then '-' else c)

/-- `normalizeDashChars` on a whole string. -/
def normalizeDashes (s : String) : String :=
  String.mk (normalizeDashChars s.toList)

/-- Pure parsing core of `MKS2000.get_pressures`, applied to the decoded
line: strip; empty line is no value; normalize dashes; take the first
whitespace token containing a digit; re-attach a leading minus of the line
when the candidate has none; convert with `float` (`ValueError` caught as
no value). -/
def parsePressure (lineRaw : String) : Option ℚ :=
  let resp0 := trimChars lineRaw.toList
  if resp0.isEmpty then none
  else
    let resp := normalizeDashChars resp0
    let parts := splitWsChars resp
    match parts.find? (fun p => p.any (fun c => c.isDigit)) with
    | none => none
    | some numeric0 =>
      let numeric :=
        if startsDash (trimChars resp) && !startsDash numeric0 then
          '-' :: numeric0
        else numeric0
      pyFloat (String.mk numeric)

/-- Outcome of the serial write/settle/readline transaction: a raised
serial exception, or the decoded response line. -/
inductive SerOutcome
  | transportError
  | line (s : String)
deriving DecidableEq

/-- `MKS2000.get_pressures` with the serial handle as `ser`: one lazy
reconnect when no handle is held, then the transaction.  A transport
exception drops the handle; a parse failure returns no value but keeps
the handle.  Also reports the number of connect attempts in this call. -/
def get_pressures (ser : Bool) (connectOk : Bool) (outcome : SerOutcome) :
    Bool × Option ℚ × Nat :=
  let ca : Bool × Nat := if ser then (true, 0) else (connectOk, 1)
  if !ca.1 then (false, none, ca.2)
  else
    match outcome with
    | SerOutcome.transportError => (false, none, ca.2)
    | SerOutcome.line s => (true, parsePressure s, ca.2)

/-- `MKS2000.connect`: `serial.Serial(...)` either opens (handle held) or
raises (caught, handle `None`); construction never fails. -/
def mksConnect (portOk : Bool) : Bool := portOk

/-- `LSInstr.get_temp` from `slow_control_v2.py`: with no handle it
returns `None` without any reconnect attempt, and on a read error
(`VisaIOError`/`ValueError`) it returns `None` while leaving `self.conn`
untouched, so the handle is retained. -/
def lsInstrGetTemp (conn : Bool) (outcome : ReadOutcome) : Bool × Option ℚ :=
  if !conn then (false, none)
  else
    match outcome with
    | ReadOutcome.transportError => (true, none)
    | ReadOutcome.response s =>
      match pyFloat s with
      | none => (true, none)
      | some v => (true, some v)

/-- What one `MySQLLogger.insert` call did, when it returned at all:
how many times the row's `INSERT` statement was executed, how many
MySQL connection attempts the call made, and whether any error was
surfaced (raised) to the caller. -/
structure InsertTrace where
  executions : Nat
  reconnectAttempts : Nat
  raised : Bool
deriving DecidableEq

/-- Outcome of `cursor.execute`/`commit` for the row: success, or a
`mysql.connector.Error`. -/
inductive InsertOutcome
  | ok
  | dbError
deriving DecidableEq

/-- `MySQLLogger.connect`: `while True: try connect / except: sleep(5)`.
`oracle k` tells whether the `k`-th connection attempt (0-based) succeeds;
`fuel` bounds how many loop iterations we observe.  Returns the total
number of attempts when the loop exits within `fuel` iterations, and
`none` when it is still looping after `fuel` attempts. -/
def mysqlConnect (oracle : Nat → Bool) : Nat → Nat → Option Nat
  | 0, _ => none
  | fuel + 1, k => if oracle k then some (k + 1) else mysqlConnect oracle fuel (k + 1)

/-- `MySQLLogger.insert`: execute the row's `INSERT` once; on success
commit and return; on `Error`, log, call `self.connect()` (the unbounded
retry loop) and return with the exception swallowed.  `none` means the
call has not returned within `fuel` reconnect attempts. -/
def mysqlInsert (outcome : InsertOutcome) (oracle : Nat → Bool) (fuel : Nat) :
    Option InsertTrace :=
  match outcome with
  | InsertOutcome.ok => some ⟨1, 0, false⟩
  | InsertOutcome.dbError =>
    match mysqlConnect oracle fuel 0 with
    | none => none
    | some k => some ⟨1, k, false⟩

/-- The per-cycle row dictionary: the `"timestamp"` entry followed by the
channel-keyed optional readings, in insertion order. -/
structure Record where
  timestamp : Int
  values : List (String × Option ℚ)
deriving DecidableEq

/-- Key set of the row, in insertion order (`row.keys()`). -/
def Record.keys (r : Record) : List String :=
  "timestamp" :: r.values.map Prod.fst

/-- Column key `f"LS218_ch{ch}"`. -/
def lsKey (ch : Nat) : String := s!"LS218_ch{ch}"

/-- Column key `f"LS370_ch{ch}"` (v2 only). -/
def ls370Key (ch : Nat) : String := s!"LS370_ch{ch}"

/-- Column key `f"MKS{i}_g1"`. -/
def mksKey (i : Nat) : String := s!"MKS{i}_g1"

/-- Device name `f"MKS{i}"`, used in the cycle event trace. -/
def mksName (i : Nat) : String := s!"MKS{i}"

/-- Python `dict.get(ch)` on the returned channel dictionary: the stored
optional value when the key is present, `None` when it is absent. -/
def lookup : List (Nat × Option ℚ) → Nat → Option ℚ
  | [], _ => none
  | (k, v) :: rest, ch => if k = ch then v else lookup rest ch

/-- Row assembly of the v3 main loop: `row = {"timestamp": ts}`, then
`row[f"LS218_ch{ch}"] = all_temps.get(ch)` for every configured channel,
then `row[f"MKS{i}_g1"] = mks.get_pressures()` for each gauge in order —
every key is assigned unconditionally, failed readings as `None`. -/
def mkRowV3 (ts : Int) (allTemps : List (Nat × Option ℚ)) (press : List (Option ℚ)) :
    Record :=
  ⟨ts, CHANNELS.map (fun ch => (lsKey ch, lookup allTemps ch)) ++
    press.enum.map (fun p => (mksKey (p.1 + 1), p.2))⟩

/-- LS370 channels in `slow_control_v2.py`. -/
def channels_370 : List Nat := [1, 2, 3, 4]

/-- LS218 channels in `slow_control_v2.py`. -/
def channels_218 : List Nat := [1, 2, 5, 6, 7]

/-- Row assembly of the v2 poll loop: each instrument's channels are read
only when its handle exists, and a key is added only when the reading is
not `None` (`if val is not None: row[...] = val`), so failed readings are
omitted from the key set. -/
def mkRowV2 (ts : Int) (conn370 : Bool) (t370 : Nat → Option ℚ)
    (conn218 : Bool) (t218 : Nat → Option ℚ) : Record :=
  ⟨ts,
    (if conn370 then
        channels_370.filterMap (fun ch => (t370 ch).map (fun v => (ls370Key ch, some v)))
      else []) ++
    (if conn218 then
        channels_218.filterMap (fun ch => (t218 ch).map (fun v => (lsKey ch, some v)))
      else [])⟩

/-- Wall clock at one instant, exposing both readings the scripts can
take: `datetime.now(timezone.utc)` and the naive local `datetime.now()`. -/
structure Clock where
  utc : Int
  localTime : Int

/-- Observable events of one poll-loop iteration, in program order. -/
inductive Event
  | captureTimestamp (t : Int)
  | deviceRead (device : String)
  | sinkInsert
deriving DecidableEq

/-- Whether an event is a timestamp capture. -/
def isCapture : Event → Bool
  | Event.captureTimestamp _ => true
  | _ => false

/-- One iteration of the v3 main loop: `timestamp = datetime.now(timezone.utc)`
first, then the LS218 batch read, then one read per MKS gauge, then
`db.insert(row)`; the single captured timestamp is the row's. -/
def pollCycleV3 (c : Clock) (allTemps : List (Nat × Option ℚ))
    (press : List (Option ℚ)) : List Event × Record :=
  (Event.captureTimestamp c.utc :: Event.deviceRead "LS218" ::
      ((List.range press.length).map (fun i => Event.deviceRead (mksName (i + 1))) ++
        [Event.sinkInsert]),
    mkRowV3 c.utc allTemps press)

/-- One iteration of the v2 poll loop: `timestamp = datetime.now()` (the
naive local clock, not UTC) first, then the LS370 and LS218 channel
reads, then the CSV write and DB insert. -/
def pollCycleV2 (c : Clock) (conn370 : Bool) (t370 : Nat → Option ℚ)
    (conn218 : Bool) (t218 : Nat → Option ℚ) : List Event × Record :=
  (Event.captureTimestamp c.localTime :: Event.deviceRead "LS370" ::
      Event.deviceRead "LS218" :: [Event.sinkInsert],
    mkRowV2 c.localTime conn370 t370 conn218 t218)

/-- `n` consecutive poll-loop calls of `LS218.get_all_temps` against an
absent device (every reconnect attempt fails, the bus never answers):
the rows produced and the final handle state. -/
def pollAbsentLS218 : Nat → Bool → List (List (Nat × Option ℚ)) × Bool
  | 0, conn => ([], conn)
  | n + 1, conn =>
    match get_all_temps conn false ReadOutcome.transportError with
    | (c2, row, _) =>
      match pollAbsentLS218 n c2 with
      | (rows, cf) => (row :: rows, cf)

/-- `n` consecutive poll-loop calls of `MKS2000.get_pressures` against an
absent gauge. -/
def pollAbsentMKS : Nat → Bool → List (Option ℚ) × Bool
  | 0, ser => ([], ser)
  | n + 1, ser =>
    match get_pressures ser false SerOutcome.transportError with
    | (s2, v, _) =>
      match pollAbsentMKS n s2 with
      | (vs, sf) => (v :: vs, sf)

/-- Static key set of the v3 row: timestamp, the five configured LS218
channels, and one gauge key per MKS serial port (three ports). -/
def v3Keys : List String :=
  ["timestamp", "LS218_ch1", "LS218_ch2", "LS218_ch5", "LS218_ch6", "LS218_ch7",
   "MKS1_g1", "MKS2_g1", "MKS3_g1"]

/-- Looking a channel up in the positional dictionary built from a parsed
vector finds the value at position `ch - (b + 1)` of the vector. -/
theorem lookup_posDict (rs : List ℚ) : ∀ b ch : Nat,
    lookup (posDict b rs) ch =
      if b + 1 ≤ ch then rs.get? (ch - (b + 1)) else none := by
  induction rs with
  | nil => intro b ch; simp [posDict, lookup]
  | cons v rest ih =>
    intro b ch
    simp only [posDict, lookup]
    by_cases h : b + 1 = ch
    · subst h; simp
    · rw [if_neg h, ih (b + 1)]
      by_cases h2 : b + 1 ≤ ch
      · have h3 : b + 1 + 1 ≤ ch := by omega
        rw [if_pos h3, if_pos h2]
        have h4 : ch - (b + 1) = (ch - (b + 1 + 1)) + 1 := by omega
        rw [h4]
        rfl
      · rw [if_neg (by omega : ¬ b + 1 + 1 ≤ ch), if_neg h2]

/-- Against a database that never comes back, the `MySQLLogger.connect`
retry loop is still running after any number of attempts. -/
theorem mysqlConnect_never (fuel k : Nat) :
    mysqlConnect (fun _ => false) fuel k = none := by
  induction fuel generalizing k with
  | zero => rfl
  | succ n ih => simpa [mysqlConnect] using ih (k + 1)

/-- Shape of the v3 row's key list: it is determined by the static
channel list and the number of gauges alone — the readings (and hence
any failures) cannot change it. -/
theorem keys_mkRowV3 (ts : Int) (temps : List (Nat × Option ℚ))
    (press : List (Option ℚ)) :
    (mkRowV3 ts temps press).keys =
      "timestamp" :: (CHANNELS.map lsKey ++
        (List.range press.length).map (fun i => mksKey (i + 1))) := by
  simp only [mkRowV3, Record.keys, List.map_append, List.map_map]
  rw [← List.enum_map_fst press, List.map_map]
  rfl

/-- Device-read events contain no timestamp capture. -/
theorem countP_reads (l : List Nat) :
    ((l.map fun i => Event.deviceRead (mksName (i + 1))).countP isCapture) = 0 := by
  induction l with
  | nil => rfl
  | cons a t ih => simp [List.countP_cons, isCapture, ih]

/-- C1 (counterexample): the claim quantifies over every poll cycle of the
program, including the v2 poll loop it cites, but in v2 a channel whose
reading failed is omitted from the row's key set.  Concretely: LS370
absent, LS218 connected, only channel 1 readable — the row handed to the
sink has keys `["timestamp", "LS218_ch1"]` even though channel 5 is
configured, so the key set is not the static channel set. -/
theorem c1_counterexample :
    (mkRowV2 0 false (fun _ => none) true
        (fun ch => if ch = 1 then some 1 else none)).keys =
      ["timestamp", "LS218_ch1"] ∧ 5 ∈ channels_218 := by
  constructor
  · decide
  · decide

/-- C1 (amended): in the v3 main loop the invariant does hold — for every
cycle, whatever the LS218 dictionary and the three gauge readings are
(any number of devices unreachable, every failure present as `None`), the
row's key set is exactly the static key set `v3Keys`. -/
theorem c1_amended (ts : Int) (temps : List (Nat × Option ℚ))
    (press : List (Option ℚ)) (h : press.length = 3) :
    (mkRowV3 ts temps press).keys = v3Keys := by
  rw [keys_mkRowV3, h]
  decide

/-- C1 (witness): the amended theorem applied to a cycle in which every
device read failed. -/
theorem c1_amended_witness :
    ([none, none, none] : List (Option ℚ)).length = 3 ∧
    (mkRowV3 0 [] [none, none, none]).keys = v3Keys :=
  ⟨by decide, c1_amended 0 [] [none, none, none] (by decide)⟩

/-- C2 (counterexample): a short response is not a `ReadError` for all
channels.  `"+1.0,+2.0"` has two of the eight expected values, yet
channel 1 receives the value `1.0` and the returned dictionary is not the
all-`None` failure row — a partial success. -/
theorem c2_counterexample :
    lookup (get_all_temps true true (ReadOutcome.response "+1.0,+2.0")).2.1 1 =
      some 1 ∧
    (get_all_temps true true (ReadOutcome.response "+1.0,+2.0")).2.1 ≠ failRow := by
  constructor
  · decide
  · decide

/-- C2 (amended): when every comma-separated field of the response parses,
`get_all_temps` returns the positional dictionary regardless of its
length: channel `ch` receives position `ch - 1` of the parsed vector, so
channels beyond a short response resolve to `None` while covered channels
keep their values; only a field that fails `float` conversion makes the
call a `ReadError` for all channels. -/
theorem c2_amended (s : String) (rs : List ℚ) (cs : Bool)
    (h : parseTemps s = some rs) (ch : Nat) (hch : 1 ≤ ch) :
    lookup (get_all_temps true cs (ReadOutcome.response s)).2.1 ch =
      rs.get? (ch - 1) := by
  have hrow : (get_all_temps true cs (ReadOutcome.response s)).2.1 = posDict 0 rs := by
    simp [get_all_temps, h]
  rw [hrow, lookup_posDict]
  rw [if_pos (by omega : 0 + 1 ≤ ch)]

/-- C2 (witness): the amended theorem applied to the short response
`"+1.0,+2.0"` at configured channel 5, which resolves to `None`. -/
theorem c2_amended_witness :
    lookup (get_all_temps true true (ReadOutcome.response "+1.0,+2.0")).2.1 5 =
      ([(1 : ℚ), 2]).get? 4 :=
  c2_amended "+1.0,+2.0" [1, 2] true (by decide) 5 (by decide)

/-- C3 (counterexample): there is no bound after which `insert` returns
control to the caller: for every bound on the number of internal
reconnect attempts, a failing insert against a database that never comes
back has still not returned. -/
theorem c3_counterexample :
    ¬ ∃ B : Nat, ∀ (o : InsertOutcome) (oracle : Nat → Bool),
        (mysqlInsert o oracle B).isSome = true := by
  rintro ⟨B, h⟩
  have hb := h InsertOutcome.dbError (fun _ => false)
  simp [mysqlInsert, mysqlConnect_never] at hb

/-- C3 (amended): a failing `insert` blocks the calling cycle without any
bound — its internal `connect` loop retries until an attempt succeeds, so
if the database never becomes reachable, control never returns to the
caller within any number of attempts. -/
theorem c3_amended (fuel : Nat) :
    mysqlInsert InsertOutcome.dbError (fun _ => false) fuel = none := by
  simp [mysqlInsert, mysqlConnect_never]

/-- C4 (counterexample): on an insert failure the logger does not make
exactly one reconnect attempt and surfaces nothing: with the first two
connection attempts failing and the third succeeding, the call makes
three attempts and returns with the error swallowed (`raised = false`),
so no `SinkError` reaches the caller. -/
theorem c4_counterexample :
    mysqlInsert InsertOutcome.dbError (fun k => if k < 2 then false else true) 10 =
      some ⟨1, 3, false⟩ ∧ (3 : Nat) ≠ 1 :=
  ⟨rfl, by decide⟩

/-- C4 (amended): when a failed `insert` returns at all, it has executed
the row's `INSERT` exactly once (the record is dropped, never retried or
duplicated) and has swallowed the error rather than surfacing a
`SinkError`; the reconnect is the unbounded retry loop, not a single
attempt.  The next cycle's insert proceeds independently: a succeeding
insert executes its own row once with no reconnects. -/
theorem c4_amended :
    (∀ (oracle : Nat → Bool) (fuel : Nat) (t : InsertTrace),
        mysqlInsert InsertOutcome.dbError oracle fuel = some t →
        t.executions = 1 ∧ t.raised = false) ∧
    (∀ (oracle : Nat → Bool) (fuel : Nat),
        mysqlInsert InsertOutcome.ok oracle fuel = some ⟨1, 0, false⟩) := by
  constructor
  · intro oracle fuel t h
    simp only [mysqlInsert] at h
    cases hc : mysqlConnect oracle fuel 0 with
    | none => rw [hc] at h; exact absurd h (by simp)
    | some k =>
      rw [hc] at h
      have h2 : (⟨1, k, false⟩ : InsertTrace) = t := by
        exact Option.some.inj h
      rw [← h2]
      exact ⟨rfl, rfl⟩
  · intro oracle fuel
    rfl

/-- C4 (witness): the amended theorem applied to an insert failure whose
first reconnect attempt succeeds. -/
theorem c4_amended_witness :
    (⟨1, 1, false⟩ : InsertTrace).executions = 1 ∧
    (⟨1, 1, false⟩ : InsertTrace).raised = false :=
  c4_amended.1 (fun _ => true) 5 ⟨1, 1, false⟩ rfl

/-- C5: serial gauge parsing — dash-like code points are normalized to
`'-'`, tokens are split on whitespace, the first digit-bearing token is
the candidate, a leading detached minus is re-attached, and parsing is a
total function: `"- 3.7e+0 Off"` yields `-3.7` (= `-37/10`),
`"Off 340.2e+0"` yields `340.2` (= `3402/10`), `"Off Off"` yields no
value, and each of the six dash variants handled by the source is mapped
to an ASCII hyphen. -/
theorem c5_gauge_parsing :
    (parsePressure "- 3.7e+0 Off" = some (mkRat (-37) 10) ∧
      mkRat (-37) 10 = -37 / 10) ∧
    (parsePressure "Off 340.2e+0" = some (mkRat 3402 10) ∧
      mkRat 3402 10 = 3402 / 10) ∧
    parsePressure "Off Off" = none ∧
    normalizeDashes "−–—‒‐‑" = "------" := by
  refine ⟨⟨by decide, ?_⟩, ⟨by decide, ?_⟩, by decide, by decide⟩
  · rw [Rat.mkRat_eq_divInt, Rat.divInt_eq_div]
    norm_num
  · rw [Rat.mkRat_eq_divInt, Rat.divInt_eq_div]
    norm_num

/-- C6 (counterexample): read failures do not always invalidate the held
transport handle.  `MKS2000.get_pressures` on the unparseable line
`"Off Off"` is a read failure (no value is produced) yet it returns with
the serial handle still held and makes no state transition; likewise
v2's `LSInstr.get_temp` keeps its handle on a transport error (and, per
its first branch, makes zero reconnect attempts when disconnected). -/
theorem c6_counterexample :
    get_pressures true true (SerOutcome.line "Off Off") = (true, none, 0) ∧
    lsInstrGetTemp true ReadOutcome.transportError = (true, none) := by
  constructor
  · decide
  · decide

/-- C6 (amended): for the v3 drivers, a transport-level failure
invalidates the handle with no retry inside the call (`LS218` also drops
the handle on a malformed response: its post-call handle state is exactly
whether the response parsed), a call entered with a handle makes zero
connect attempts, a call entered `Disconnected` makes exactly one, and
when that one attempt fails the call gives up for the cycle with the
failure value.  (A parse-only failure in `MKS2000` returns no value but
keeps the handle, and v2's `LSInstr` neither invalidates nor
reconnects.) -/
theorem c6_amended :
    (∀ cs : Bool, get_all_temps true cs ReadOutcome.transportError = (false, failRow, 0)) ∧
    (∀ (cs : Bool) (s : String),
        (get_all_temps true cs (ReadOutcome.response s)).1 = (parseTemps s).isSome ∧
        (get_all_temps true cs (ReadOutcome.response s)).2.2 = 0) ∧
    (∀ (cs : Bool) (o : ReadOutcome), (get_all_temps false cs o).2.2 = 1) ∧
    (∀ o : ReadOutcome, get_all_temps false false o = (false, failRow, 1)) ∧
    (∀ cs : Bool, get_pressures true cs SerOutcome.transportError = (false, none, 0)) ∧
    (∀ (cs : Bool) (o : SerOutcome), (get_pressures false cs o).2.2 = 1) ∧
    (∀ o : SerOutcome, get_pressures false false o = (false, none, 1)) := by
  refine ⟨fun cs => rfl, fun cs s => ?_, fun cs o => ?_, fun o => rfl,
    fun cs => rfl, fun cs o => ?_, fun o => rfl⟩
  · cases h : parseTemps s <;> simp [get_all_temps, h]
  · cases cs with
    | false => rfl
    | true =>
      cases o with
      | transportError => rfl
      | response s => cases h : parseTemps s <;> simp [get_all_temps, h]
  · cases cs <;> cases o <;> rfl

/-- C7 (counterexample): the cycle timestamp is not always in UTC — the
v2 poll loop it cites captures `datetime.now()`, the naive local clock.
At a clock whose local reading is 3600 seconds ahead of UTC reading 0,
the v2 record carries timestamp 3600, which is not the UTC time. -/
theorem c7_counterexample :
    (pollCycleV2 ⟨0, 3600⟩ false (fun _ => none) false (fun _ => none)).2.timestamp =
      3600 ∧
    ((3600 : Int) ≠ (⟨0, 3600⟩ : Clock).utc) := by
  constructor
  · rfl
  · decide

/-- C7 (amended): in the v3 main loop the cycle timestamp is captured
exactly once, as the first event of the cycle — before any device is
queried — from the UTC clock, and that single captured value is the one
timestamp the record carries (readings themselves are plain optional
numbers with no time attached). -/
theorem c7_amended (c : Clock) (temps : List (Nat × Option ℚ))
    (press : List (Option ℚ)) :
    (pollCycleV3 c temps press).1.countP isCapture = 1 ∧
    (pollCycleV3 c temps press).1.head? = some (Event.captureTimestamp c.utc) ∧
    (pollCycleV3 c temps press).2.timestamp = c.utc := by
  refine ⟨?_, rfl, rfl⟩
  simp [pollCycleV3, List.countP_cons, List.countP_append, countP_reads, isCapture]

/-- C8: batch-read parsing maps position `i` of the comma-separated
vector to channel `i + 1`: from `"+12.345,+50.678,-1.000,+0.0"` the
configured channels `[1, 2, 4]` receive `12.345`, `50.678` and `0.0`
respectively (position 3's value `-1.000` belongs to the unconfigured
channel 3 and is ignored). -/
theorem c8_batch_positions :
    ([1, 2, 4].map fun ch =>
        (ch, lookup (get_all_temps true true
          (ReadOutcome.response "+12.345,+50.678,-1.000,+0.0")).2.1 ch)) =
      [(1, some (mkRat 12345 1000)), (2, some (mkRat 50678 1000)), (4, some 0)] ∧
    mkRat 12345 1000 = 12345 / 1000 ∧ mkRat 50678 1000 = 50678 / 1000 := by
  refine ⟨by decide, ?_, ?_⟩
  · rw [Rat.mkRat_eq_divInt, Rat.divInt_eq_div]
    norm_num
  · rw [Rat.mkRat_eq_divInt, Rat.divInt_eq_div]
    norm_num

/-- C9: constructing a driver for an absent device records the
`Disconnected` state instead of failing (`connect` maps every failing
environment to the no-handle state), and any number `n` of consecutive
poll cycles against an absent device — 100 in particular — produce the
failure value each cycle and leave the driver `Disconnected`, for both
driver families; the iteration is a total function, so no cycle can
throw. -/
theorem c9_absent_device :
    (∀ n : Nat, (pollAbsentLS218 n false).1 = List.replicate n failRow ∧
        (pollAbsentLS218 n false).2 = false) ∧
    (∀ n : Nat, (pollAbsentMKS n false).1 = List.replicate n (none : Option ℚ) ∧
        (pollAbsentMKS n false).2 = false) ∧
    (∀ (queryOk : Bool) (idn : String), ls218Connect false queryOk idn = false) ∧
    mksConnect false = false := by
  refine ⟨?_, ?_, fun q i => rfl, rfl⟩
  · intro n
    induction n with
    | zero => exact ⟨rfl, rfl⟩
    | succ k ih =>
      refine ⟨?_, ?_⟩
      · show failRow :: (pollAbsentLS218 k false).1 = List.replicate (k + 1) failRow
        rw [List.replicate_succ, ih.1]
      · exact ih.2
  · intro n
    induction n with
    | zero => exact ⟨rfl, rfl⟩
    | succ k ih =>
      refine ⟨?_, ?_⟩
      · show (none : Option ℚ) :: (pollAbsentMKS k false).1 =
          List.replicate (k + 1) (none : Option ℚ)
        rw [List.replicate_succ, ih.1]
      · exact ih.2

/-- C10: every failure path of `get_all_temps` — reconnect attempt
failed, transport error during the read, or an unparseable response —
returns (rather than raising) the total mapping whose key list is
exactly `CHANNELS` with every value `None`. -/
theorem c10_failure_defaults :
    (∀ o : ReadOutcome, get_all_temps false false o = (false, failRow, 1)) ∧
    (∀ cs : Bool, get_all_temps true cs ReadOutcome.transportError = (false, failRow, 0)) ∧
    (∀ (cs : Bool) (s : String), parseTemps s = none →
        get_all_temps true cs (ReadOutcome.response s) = (false, failRow, 0)) ∧
    failRow.map Prod.fst = CHANNELS ∧
    (∀ p ∈ failRow, p.2 = none) := by
  refine ⟨fun o => rfl, fun cs => rfl, fun cs s h => ?_, by decide, by decide⟩
  simp [get_all_temps, h]

/-- C10 (witness): the malformed-response path at the concrete response
`"abc"`. -/
theorem c10_witness :
    parseTemps "abc" = none ∧
    get_all_temps true true (ReadOutcome.response "abc") = (false, failRow, 0) :=
  ⟨by decide, c10_failure_defaults.2.2.1 true "abc" (by decide)⟩

end SlowControl
